import Mathlib

/-!
Shallow embedding of the osm-kafka-exporter charm (src/src/charm.py).

The charm is an event-driven reconciler: it resolves a Kafka endpoint from
two mutually exclusive sources (the static `kafka-endpoint` config option
and the `kafka` relation data), derives a Pebble layer from it, applies the
layer with a bounded retry loop, and reports a unit status.

The embedding models one event delivery as a pure function from a
`Snapshot` (the configuration, relation data, and Pebble reachability at
event time) to a `HandlerResult` recording every externally visible effect:
layers submitted, replans, status writes, event deferral, sleeps, ingress
pushes and workload-stop attempts.
-/

namespace KafkaExporter

/-- Unit status as set by the charm: `ActiveStatus()` (empty message),
`WaitingStatus(msg)`, `BlockedStatus(msg)`. -/
inductive Status where
  | active
  | waiting (msg : String)
  | blocked (msg : String)
  deriving DecidableEq

/-- A `CharmError` carries a message and the status shown when a handler
catches it. -/
structure CharmErr where
  message : String
  status : Status
  deriving DecidableEq

/-- Modelled from the spec: `CharmError` comes from the external
`charms.osm_libs.v0.utils` module, which is not part of this repository.
Per the spec, every resolution failure "sets status ⇒ Blocked(message)";
accordingly `CharmError(msg)` raised with the default status class yields
status `Blocked(msg)`. -/
def charmError (msg : String) : CharmErr :=
  { message := msg, status := .blocked msg }

/-- The events the charm observes. `noneEvent` stands for Python `None`
(the default argument of `_get_kafka_endpoint`). -/
inductive EventKind where
  | configChanged
  | pebbleReady
  | updateStatus
  | relationBroken
  | kafkaAvailable
  | noneEvent
  deriving DecidableEq

/-- Last known execution state of the managed Pebble service, as reported
by the supervisor. -/
inductive ServiceState where
  | running
  | stopped
  | notConfigured
  deriving DecidableEq

/-- Python truthiness of an optional string: `None` and `""` are falsy.
Used for `config.get(...)` values and relation data fields. -/
def optTruthy : Option String → Option String
  | none => none
  | some s => if s = "" then none else some s

/-- The inputs of one event delivery: configuration, relation data, and the
supervisor environment (reachability, per-attempt replan outcomes, service
state). `replanFails n` is the `ChangeError` message raised by the n-th
layer-submission attempt, or `none` if that attempt succeeds. -/
structure Snapshot where
  logLevel : String
  kafkaEndpointCfg : Option String
  externalHostname : Option String
  relationHost : Option String
  relationPort : Option String
  canConnect : Bool
  replanFails : Nat → Option String
  serviceState : ServiceState

/-- `PORT = 9308` (charm.py line 35). -/
def PORT : Nat := 9308

def wrongFormatMsg : String :=
  "Wrong kafka-endpoint format: value must be in the format <host>:<port>"

def conflictMsg : String :=
  "Kafka cannot added via relation and via config at the same time"

def noEndpointMsg : String :=
  "Not kafka-endpoint added. Kafka endpoint needs to be added via relation or via config"

def logLevelErrMsg : String := "invalid value for log-level option"

/-- Split a character list at every occurrence of `c`, keeping empty
pieces, as Python `str.split` does for a one-character separator. -/
def splitCharsOn (c : Char) : List Char → List (List Char)
  | [] => [[]]
  | ch :: rest =>
      let r := splitCharsOn c rest
      if ch = c then [] :: r
      else
        match r with
        | [] => [[ch]]
        | a :: as => (ch :: a) :: as

/-- Python `s.split(sep)` for a one-character separator: `""` gives
`[""]`, `":"` gives `["", ""]`, `"a:b"` gives `["a", "b"]`. -/
def pySplit (s : String) (sep : Char) : List String :=
  (splitCharsOn sep s.data).map (fun l => ⟨l⟩)

/-- Python `s.upper()` (characterwise uppercasing; the values compared in
this charm are ASCII). -/
def pyUpper (s : String) : String := ⟨s.data.map Char.toUpper⟩

/-- The membership test of `_validate_config`:
`config|log-level|.upper() in TRACE/DEBUG/INFO/WARN/ERROR/FATAL`. -/
def validLogLevel (lvl : String) : Bool :=
  ["TRACE", "DEBUG", "INFO", "WARN", "ERROR", "FATAL"].contains (pyUpper lvl)

/-- `_validate_config` (charm.py 131-155). Raises on an invalid log level;
then, if the `kafka-endpoint` option is truthy, raises unless the value
splits on a colon into exactly two parts. (The transient
`unit.status = BlockedStatus(...)` writes made just before each raise are
always overwritten by the catching handler with `error.status`, so they do
not appear in the model.) -/
def validate_config (s : Snapshot) : Except CharmErr Unit :=
  if !(validLogLevel s.logLevel) then
    .error (charmError logLevelErrMsg)
  else
    match optTruthy s.kafkaEndpointCfg with
    | some ke =>
        if (pySplit ke ':').length ≠ 2 then .error (charmError wrongFormatMsg)
        else .ok ()
    | none => .ok ()

/-- `_get_kafka_config` (charm.py 157-162): validate, then return the raw
config value. (The `except` clause re-raises `CharmError(error.message)`,
which has the same message and the same default Blocked status, so it is a
pass-through.) -/
def get_kafka_config (s : Snapshot) : Except CharmErr (Option String) :=
  match validate_config s with
  | .error e => .error e
  | .ok _ => .ok s.kafkaEndpointCfg

/-- `_get_kafka_relation` (charm.py 164-169): on a `RelationBrokenEvent`
the relation source is `None`; otherwise `host:port` when both fields are
truthy. -/
def get_kafka_relation (s : Snapshot) (ev : EventKind) : Option String :=
  if ev = .relationBroken then none
  else
    match optTruthy s.relationHost, optTruthy s.relationPort with
    | some h, some p => some (h ++ ":" ++ p)
    | _, _ => none

/-- `_get_kafka_endpoint` (charm.py 235-251). -/
def get_kafka_endpoint (s : Snapshot) (ev : EventKind) : Except CharmErr String :=
  let relation := get_kafka_relation s ev
  match get_kafka_config s with
  | .error e => .error e
  | .ok cfg =>
      match optTruthy cfg with
      | some configuration =>
          if relation.isSome then .error (charmError conflictMsg)
          else .ok configuration
      | none =>
          match relation with
          | some r => .ok r
          | none => .error (charmError noEndpointMsg)

/-- The single service entry of the layer dict (charm.py 260-265). -/
structure PebbleService where
  override : String
  summary : String
  command : String
  startup : String
  deriving DecidableEq

/-- The single check entry of the layer dict (charm.py 268-274). -/
structure PebbleCheck where
  override : String
  level : String
  tcpPort : Nat
  deriving DecidableEq

/-- The dict returned by the `_pebble_layer` property (charm.py 253-276). -/
structure PebbleLayer where
  summary : String
  description : String
  serviceName : String
  service : PebbleService
  checkName : String
  check : PebbleCheck
  deriving DecidableEq

/-- Python f-string rendering of the `kafka_endpoint` attribute, which is
`None` until a resolution succeeds. -/
def pyStr : Option String → String
  | none => "None"
  | some s => s

/-- `_pebble_layer` (charm.py 253-276), as a function of the
`kafka_endpoint` attribute it interpolates. -/
def pebble_layer (kafka_endpoint : Option String) : PebbleLayer :=
  { summary := "kafka-exporter layer"
    description := "pebble config layer for kafka-exporter"
    serviceName := "kafka-exporter"
    service :=
      { override := "replace"
        summary := "kafka-exporter service"
        command := "bin/kafka_exporter --kafka.server=" ++ pyStr kafka_endpoint
        startup := "enabled" }
    checkName := "online"
    check := { override := "replace", level := "ready", tcpPort := PORT } }

/-- Externally visible effects accumulated while a handler runs.
`layers` records each `add_layer` call, `replans` each successful
`replan()`, `status` the last `unit.status` write (`none` = never
written), `deferred` whether `event.defer()` was called, `sleepTime` the
total `time.sleep` duration, and `propagated` the message of an exception
that escaped the handler (always `none` for caught errors). -/
structure Trace where
  layers : List PebbleLayer := []
  replans : Nat := 0
  status : Option Status := none
  deferred : Bool := false
  sleepTime : Nat := 0
  propagated : Option String := none
  deriving DecidableEq

/-- `_configure_service` together with `_retry_configure_service`
(charm.py 108-129). The first `Nat` is the `retry` parameter (initially
3), the second counts attempts so far (indexing `replanFails`). Each
attempt with a truthy `retry` checks `can_connect`; on success it adds the
layer, replans and sets `ActiveStatus()`; if `replan` raises a
`ChangeError`, the retry helper sleeps 5 seconds, decrements `retry` and
recurses. `retry = 0` falls straight through: the error is not re-raised
and no status is written. -/
def configure_service (canConnect : Bool) (replanFails : Nat → Option String)
    (layer : PebbleLayer) : Nat → Nat → Trace → Trace
  | 0, _, tr => tr
  | Nat.succ retryPred, attempt, tr =>
      if canConnect then
        let tr1 := { tr with layers := tr.layers ++ [layer] }
        match replanFails attempt with
        | none => { tr1 with replans := tr1.replans + 1, status := some .active }
        | some _ =>
            configure_service canConnect replanFails layer retryPred (attempt + 1)
              { tr1 with sleepTime := tr1.sleepTime + 5 }
      else
        { tr with deferred := true, status := some (.waiting "waiting for Pebble API") }

/-- Modelled from the spec: `check_container_ready` comes from the external
`charms.osm_libs.v0.utils` module, which is not part of this repository.
It fails when the supervisor control API does not accept commands; the
spec maps supervisor unreachability to `Waiting`, not `Blocked`. -/
def check_container_ready (canConnect : Bool) : Except CharmErr Unit :=
  if canConnect then .ok ()
  else .error { message := "Pebble is not ready", status := .waiting "Pebble is not ready" }

/-- Modelled from the spec: `check_service_active` comes from the external
`charms.osm_libs.v0.utils` module, which is not part of this repository.
It fails unless the service's last known execution state is running; when
the supervisor reports the service was never configured, the message is
the exact string `_stop_container` (charm.py 203) compares against. -/
def check_service_active (svc : ServiceState) : Except CharmErr Unit :=
  match svc with
  | .running => .ok ()
  | .stopped => .error (charmError "kafka-exporter service is not running")
  | .notConfigured => .error (charmError "kafka-exporter service not configured yet")

/-- `_stop_container` (charm.py 195-205). Returns whether
`container.stop` was invoked: always, except when `check_service_active`
reports the service was never configured. -/
def stop_container (s : Snapshot) : Bool :=
  match check_service_active s.serviceState with
  | .error e => decide (e.message ≠ "kafka-exporter service not configured yet")
  | .ok _ =>
      match check_container_ready s.canConnect with
      | .error e => decide (e.message ≠ "kafka-exporter service not configured yet")
      | .ok _ => true

/-- Result of one event delivery. `ingressPush = some h` records a call
`ingress.update_config` with service-hostname `h`; `stopAttempt = some b`
records a `_stop_container` call that invoked `container.stop` iff `b`. -/
structure HandlerResult where
  trace : Trace := {}
  ingressPush : Option (Option String) := none
  stopAttempt : Option Bool := none
  deriving DecidableEq

/-- `_on_config_changed` (charm.py 171-181): resolve, configure the
service, then push the ingress config; a `CharmError` is caught, the
workload stop is attempted and the error's status is set. -/
def on_config_changed (s : Snapshot) : HandlerResult :=
  match get_kafka_endpoint s .configChanged with
  | .ok ep =>
      { trace := configure_service s.canConnect s.replanFails (pebble_layer (some ep)) 3 0 {}
        ingressPush := some s.externalHostname }
  | .error e =>
      { trace := { status := some e.status }, stopAttempt := some (stop_container s) }

/-- `_on_kafka_exporter_pebble_ready` (charm.py 87-106): resolve, then
`add_layer` and `replan` directly (no retry loop); only `CharmError` is
caught, and the catch sets the status without stopping the workload. A
`ChangeError` from `replan` escapes the handler. -/
def on_kafka_exporter_pebble_ready (s : Snapshot) : HandlerResult :=
  match get_kafka_endpoint s .pebbleReady with
  | .ok ep =>
      match s.replanFails 0 with
      | none =>
          { trace := { layers := [pebble_layer (some ep)], replans := 1, status := some .active } }
      | some msg =>
          { trace := { layers := [pebble_layer (some ep)], propagated := some msg } }
  | .error e => { trace := { status := some e.status } }

/-- `_on_update_status` (charm.py 183-193): resolve, check the container
is ready and the service active, then set `ActiveStatus()`; a `CharmError`
is caught, the workload stop is attempted and the error's status is set. -/
def on_update_status (s : Snapshot) : HandlerResult :=
  match (do
      let _ ← get_kafka_endpoint s .updateStatus
      check_container_ready s.canConnect
      check_service_active s.serviceState : Except CharmErr Unit) with
  | .ok _ => { trace := { status := some .active } }
  | .error e =>
      { trace := { status := some e.status }, stopAttempt := some (stop_container s) }

/-- `_on_db_relation_broken` (charm.py 207-214): resolve (with the
relation source discarded) and configure; a `CharmError` is caught, the
workload stop is attempted and the error's status is set. -/
def on_db_relation_broken (s : Snapshot) : HandlerResult :=
  match get_kafka_endpoint s .relationBroken with
  | .ok ep =>
      { trace := configure_service s.canConnect s.replanFails (pebble_layer (some ep)) 3 0 {} }
  | .error e =>
      { trace := { status := some e.status }, stopAttempt := some (stop_container s) }

/-- `_on_kafka_available` (charm.py 216-225): resolve with the default
`None` event, check the container is ready, configure the service, then
run `_on_update_status` (which always writes a status of its own); a
`CharmError` is caught, the workload stop is attempted and the error's
status is set. -/
def on_kafka_available (s : Snapshot) : HandlerResult :=
  match (do
      let ep ← get_kafka_endpoint s .noneEvent
      check_container_ready s.canConnect
      pure ep : Except CharmErr String) with
  | .ok ep =>
      let tr := configure_service s.canConnect s.replanFails (pebble_layer (some ep)) 3 0 {}
      let us := on_update_status s
      { trace :=
          { layers := tr.layers ++ us.trace.layers
            replans := tr.replans + us.trace.replans
            status := us.trace.status
            deferred := tr.deferred || us.trace.deferred
            sleepTime := tr.sleepTime + us.trace.sleepTime
            propagated := none }
        stopAttempt := us.stopAttempt }
  | .error e =>
      { trace := { status := some e.status }, stopAttempt := some (stop_container s) }

/-! Concrete snapshots used by counterexamples and witnesses. -/

/-- Valid log level, no static endpoint, no relation data, supervisor
reachable, all submissions succeeding, service running. -/
def snapNoSource : Snapshot :=
  { logLevel := "info"
    kafkaEndpointCfg := none
    externalHostname := some "osm.example"
    relationHost := none
    relationPort := none
    canConnect := true
    replanFails := fun _ => none
    serviceState := .running }

/-- `snapNoSource` with static config `kafka:9092`. -/
def snapStaticOk : Snapshot := { snapNoSource with kafkaEndpointCfg := some "kafka:9092" }

/-- `snapNoSource` with relation data `kafka`/`9092`. -/
def snapRelOnly : Snapshot :=
  { snapNoSource with relationHost := some "kafka", relationPort := some "9092" }

/-- `snapNoSource` with static config `kafka:` (one colon, empty port). -/
def snapTrailingColon : Snapshot := { snapNoSource with kafkaEndpointCfg := some "kafka:" }

/-- Both sources set: static config `kafka:9092` and relation data
`kafka`/`9092`. -/
def snapBothSources : Snapshot :=
  { snapNoSource with
      kafkaEndpointCfg := some "kafka:9092"
      relationHost := some "kafka"
      relationPort := some "9092" }

/-- Static config `kafka:9092` with the supervisor unreachable. -/
def snapUnreachable : Snapshot := { snapStaticOk with canConnect := false }

/-- `snapNoSource` with the static option set to the empty string. -/
def snapEmptyStatic : Snapshot := { snapNoSource with kafkaEndpointCfg := some "" }

/-- Empty static option together with relation data `kafka`/`9092`. -/
def snapEmptyStaticRel : Snapshot := { snapRelOnly with kafkaEndpointCfg := some "" }

/-- Characterization of `_get_kafka_endpoint`: validate the log level,
then the static format; a truthy static value wins unless the relation is
also present (conflict); otherwise the relation value; otherwise failure. -/
theorem get_kafka_endpoint_spec (s : Snapshot) (ev : EventKind) :
    get_kafka_endpoint s ev =
      if validLogLevel s.logLevel = false then .error (charmError logLevelErrMsg)
      else
        match optTruthy s.kafkaEndpointCfg with
        | some v =>
            if (pySplit v ':').length ≠ 2 then .error (charmError wrongFormatMsg)
            else if (get_kafka_relation s ev).isSome then .error (charmError conflictMsg)
            else .ok v
        | none =>
            match get_kafka_relation s ev with
            | some r => .ok r
            | none => .error (charmError noEndpointMsg) := by
  unfold get_kafka_endpoint get_kafka_config validate_config
  cases hl : validLogLevel s.logLevel <;> simp only [hl, Bool.not_false, Bool.not_true, if_true,
    if_false, reduceIte]
  cases hc : optTruthy s.kafkaEndpointCfg with
  | none =>
      cases hr : get_kafka_relation s ev <;> simp [hr, hc]
  | some v =>
      by_cases hsp : (pySplit v ':').length = 2 <;>
        cases hr : get_kafka_relation s ev <;> simp [hr, hc, hsp]

/-! ## C1 — retry loop of the apply step -/

/-- C1: the claim states that when layer submission keeps failing with a
transient supervisor error, after 3 attempts (each preceded by a check of
the decremented retry counter, with 5-second sleeps in between) the error
propagates and the unit status becomes Blocked with the underlying
message. In the code, `_configure_service` with `retry = 0` silently
returns: the `ChangeError` is swallowed, nothing propagates, and no
status is written. Concretely, with every attempt raising a `ChangeError`
carrying message `exec error`, the resulting trace has no status write,
no propagated error — and in particular not the claimed Blocked status. -/
theorem c1_retry_exhaustion_counterexample :
    (configure_service true (fun _ => some "exec error")
        (pebble_layer (some "kafka:9092")) 3 0 {}).status = none ∧
    (configure_service true (fun _ => some "exec error")
        (pebble_layer (some "kafka:9092")) 3 0 {}).propagated = none ∧
    (configure_service true (fun _ => some "exec error")
        (pebble_layer (some "kafka:9092")) 3 0 {}).status ≠
      some (Status.blocked "exec error") := by
  refine ⟨rfl, rfl, ?_⟩
  decide

/-- C1 (amended): when every layer submission attempt fails with a
transient `ChangeError`, the reconciler makes exactly 3 attempts in
total, sleeping 5 seconds after each failed attempt (15 seconds in all)
while decrementing the retry counter; when the retry budget is exhausted
the error is swallowed: nothing propagates, no event is deferred, and the
unit status is left unwritten. -/
theorem c1_retry_exhaustion_amended (msg : String) (layer : PebbleLayer) :
    configure_service true (fun _ => some msg) layer 3 0 {} =
      { layers := [layer, layer, layer]
        replans := 0
        status := none
        deferred := false
        sleepTime := 15
        propagated := none } := rfl

/-! ## C2 — ingress push on config-changed -/

/-- C2: the claim states the externally configured hostname is pushed to
the ingress collaborator on every configuration-changed event, regardless
of whether endpoint resolution succeeded or failed. In the code,
`_update_ingress_config()` is the last statement of the `try` block of
`_on_config_changed`, so when `_get_kafka_endpoint` raises the push is
skipped. Concretely, with no endpoint configured, resolution fails and no
ingress push happens. -/
theorem c2_ingress_push_counterexample :
    get_kafka_endpoint snapNoSource .configChanged = .error (charmError noEndpointMsg) ∧
    (on_config_changed snapNoSource).ingressPush = none := ⟨rfl, rfl⟩

/-- C2 (amended): on a configuration-changed event the externally
configured hostname is pushed to the ingress collaborator exactly when
endpoint resolution succeeds (the push is skipped when resolution raises
a `CharmError`), and the push never affects the unit status: the trace of
the handler — including its status write — is independent of the
configured hostname. -/
theorem c2_ingress_push_amended (s : Snapshot) :
    ((on_config_changed s).ingressPush =
      match get_kafka_endpoint s .configChanged with
      | .ok _ => some s.externalHostname
      | .error _ => none) ∧
    ∀ h, (on_config_changed { s with externalHostname := h }).trace =
      (on_config_changed s).trace := by
  constructor
  · unfold on_config_changed
    cases get_kafka_endpoint s .configChanged <;> rfl
  · intro h
    unfold on_config_changed
    have hres : get_kafka_endpoint { s with externalHostname := h } .configChanged =
        get_kafka_endpoint s .configChanged := rfl
    rw [hres]
    cases get_kafka_endpoint s .configChanged <;> rfl

/-! ## C3 — handler failure boundary -/

/-- C3: the claim states that every public event handler converts a
reconciler-raised failure into a status update plus a best-effort stop of
the managed workload. In the code, `_on_kafka_exporter_pebble_ready`
catches the `CharmError` and sets the status but never calls
`_stop_container`. Concretely, with no endpoint configured, resolution
fails, the pebble-ready handler sets the Blocked status, and no workload
stop is attempted. -/
theorem c3_handler_stop_counterexample :
    get_kafka_endpoint snapNoSource .pebbleReady = .error (charmError noEndpointMsg) ∧
    (on_kafka_exporter_pebble_ready snapNoSource).trace.status =
      some (Status.blocked noEndpointMsg) ∧
    (on_kafka_exporter_pebble_ready snapNoSource).stopAttempt = none := ⟨rfl, rfl, rfl⟩

/-- C3 (amended): every public event handler catches a reconciler-raised
`CharmError` at its boundary and converts it into a status update, and no
such failure propagates to the platform; the config-changed,
update-status, relation-broken and kafka-available handlers additionally
attempt a best-effort workload stop, while the pebble-ready handler only
updates the status without attempting a stop. -/
theorem c3_handler_boundary_amended (s : Snapshot) (e : CharmErr) :
    (get_kafka_endpoint s .configChanged = .error e →
      on_config_changed s =
        { trace := { status := some e.status }, stopAttempt := some (stop_container s) }) ∧
    (get_kafka_endpoint s .updateStatus = .error e →
      on_update_status s =
        { trace := { status := some e.status }, stopAttempt := some (stop_container s) }) ∧
    (get_kafka_endpoint s .relationBroken = .error e →
      on_db_relation_broken s =
        { trace := { status := some e.status }, stopAttempt := some (stop_container s) }) ∧
    (get_kafka_endpoint s .noneEvent = .error e →
      on_kafka_available s =
        { trace := { status := some e.status }, stopAttempt := some (stop_container s) }) ∧
    (get_kafka_endpoint s .pebbleReady = .error e →
      on_kafka_exporter_pebble_ready s =
        { trace := { status := some e.status }, stopAttempt := none }) := by
  refine ⟨fun h => ?_, fun h => ?_, fun h => ?_, fun h => ?_, fun h => ?_⟩
  · unfold on_config_changed
    rw [h]
  · unfold on_update_status
    rw [h]
    rfl
  · unfold on_db_relation_broken
    rw [h]
  · unfold on_kafka_available
    rw [h]
    rfl
  · unfold on_kafka_exporter_pebble_ready
    rw [h]

/-- Witness for C3 (amended) at the no-endpoint snapshot: every handler
turns the resolution failure into the Blocked status, with a stop attempt
everywhere except in the pebble-ready handler. -/
theorem c3_handler_boundary_amended_witness :
    on_config_changed snapNoSource =
      { trace := { status := some (charmError noEndpointMsg).status }
        stopAttempt := some (stop_container snapNoSource) } ∧
    on_update_status snapNoSource =
      { trace := { status := some (charmError noEndpointMsg).status }
        stopAttempt := some (stop_container snapNoSource) } ∧
    on_db_relation_broken snapNoSource =
      { trace := { status := some (charmError noEndpointMsg).status }
        stopAttempt := some (stop_container snapNoSource) } ∧
    on_kafka_available snapNoSource =
      { trace := { status := some (charmError noEndpointMsg).status }
        stopAttempt := some (stop_container snapNoSource) } ∧
    on_kafka_exporter_pebble_ready snapNoSource =
      { trace := { status := some (charmError noEndpointMsg).status }
        stopAttempt := none } :=
  ⟨(c3_handler_boundary_amended snapNoSource (charmError noEndpointMsg)).1 rfl,
   (c3_handler_boundary_amended snapNoSource (charmError noEndpointMsg)).2.1 rfl,
   (c3_handler_boundary_amended snapNoSource (charmError noEndpointMsg)).2.2.1 rfl,
   (c3_handler_boundary_amended snapNoSource (charmError noEndpointMsg)).2.2.2.1 rfl,
   (c3_handler_boundary_amended snapNoSource (charmError noEndpointMsg)).2.2.2.2 rfl⟩

/-! ## C4 — static endpoint validation -/

/-- C4: the claim states that a present static endpoint string resolves
successfully if and only if it splits into exactly two NON-EMPTY
colon-separated parts, an empty part causing an `InvalidConfig` failure.
In the code, `_validate_config` only checks
`len(kafkaendpoint.split(":")) != 2`, so a value with one colon and an
empty part passes. Concretely, `kafka:` splits into `kafka` and the empty
string, yet resolution succeeds and yields `kafka:`. -/
theorem c4_static_validation_counterexample :
    pySplit "kafka:" ':' = ["kafka", ""] ∧
    get_kafka_endpoint snapTrailingColon .configChanged = .ok "kafka:" := ⟨rfl, rfl⟩

/-- C4 (amended): for every present (truthy) static endpoint string, with
a valid log level and no relation endpoint, resolution succeeds yielding
the string itself exactly when the string splits into exactly two
colon-separated parts — the parts may be empty; any string with zero or
two-or-more colons fails with the wrong-format error. -/
theorem c4_static_validation_amended (s : Snapshot) (v : String)
    (hlog : validLogLevel s.logLevel = true)
    (hcfg : s.kafkaEndpointCfg = some v) (hv : v ≠ "")
    (hrel : get_kafka_relation s .configChanged = none) :
    get_kafka_endpoint s .configChanged =
      if (pySplit v ':').length = 2 then .ok v
      else .error (charmError wrongFormatMsg) := by
  rw [get_kafka_endpoint_spec]
  simp only [hlog, hcfg, hrel, optTruthy, hv, if_neg, reduceCtorEq, Bool.true_eq_false,
    if_false, Option.isSome_none, Bool.false_eq_true]
  by_cases hsp : (pySplit v ':').length = 2 <;> simp [hsp, hv]

/-- Witness for C4 (amended) at static config `kafka:9092`. -/
theorem c4_static_validation_amended_witness :
    get_kafka_endpoint snapStaticOk .configChanged =
      if (pySplit "kafka:9092" ':').length = 2 then .ok "kafka:9092"
      else .error (charmError wrongFormatMsg) :=
  c4_static_validation_amended snapStaticOk "kafka:9092" rfl rfl (by decide) rfl

/-! ## C5 — conflicting sources -/

/-- C5: whenever a well-formed static endpoint and the relation endpoint
are present simultaneously, resolution fails with the conflict error and
the config-changed handler sets
`Blocked("Kafka cannot added via relation and via config at the same
time")`. The inputs are a snapshot, so the result is independent of the
order in which the two sources were set. -/
theorem c5_conflicting_sources (s : Snapshot) (v : String)
    (hlog : validLogLevel s.logLevel = true)
    (hcfg : s.kafkaEndpointCfg = some v) (hv : v ≠ "")
    (hsplit : (pySplit v ':').length = 2)
    (hrel : (get_kafka_relation s .configChanged).isSome = true) :
    get_kafka_endpoint s .configChanged = .error (charmError conflictMsg) ∧
    (on_config_changed s).trace.status = some (Status.blocked conflictMsg) := by
  have h1 : get_kafka_endpoint s .configChanged = .error (charmError conflictMsg) := by
    rw [get_kafka_endpoint_spec]
    simp [hlog, hcfg, optTruthy, hv, hsplit, hrel]
  refine ⟨h1, ?_⟩
  unfold on_config_changed
  rw [h1]
  rfl

/-- Witness for C5 at static config `kafka:9092` together with relation
data `kafka`/`9092`. -/
theorem c5_conflicting_sources_witness :
    get_kafka_endpoint snapBothSources .configChanged = .error (charmError conflictMsg) ∧
    (on_config_changed snapBothSources).trace.status = some (Status.blocked conflictMsg) :=
  c5_conflicting_sources snapBothSources "kafka:9092" rfl rfl (by decide) (by decide) rfl

/-! ## C6 — no endpoint -/

/-- C6: whenever neither the static endpoint nor the relation endpoint is
present (and the log level is valid), resolution fails with the
no-endpoint error and the config-changed handler sets
`Blocked("Not kafka-endpoint added. Kafka endpoint needs to be added via
relation or via config")`. -/
theorem c6_no_endpoint (s : Snapshot)
    (hlog : validLogLevel s.logLevel = true)
    (hcfg : optTruthy s.kafkaEndpointCfg = none)
    (hrel : get_kafka_relation s .configChanged = none) :
    get_kafka_endpoint s .configChanged = .error (charmError noEndpointMsg) ∧
    (on_config_changed s).trace.status = some (Status.blocked noEndpointMsg) := by
  have h1 : get_kafka_endpoint s .configChanged = .error (charmError noEndpointMsg) := by
    rw [get_kafka_endpoint_spec]
    simp [hlog, hcfg, hrel]
  refine ⟨h1, ?_⟩
  unfold on_config_changed
  rw [h1]
  rfl

/-- Witness for C6 at the snapshot with no sources. -/
theorem c6_no_endpoint_witness :
    get_kafka_endpoint snapNoSource .configChanged = .error (charmError noEndpointMsg) ∧
    (on_config_changed snapNoSource).trace.status = some (Status.blocked noEndpointMsg) :=
  c6_no_endpoint snapNoSource rfl rfl rfl

/-! ## C7 — relation-broken discards the relation endpoint -/

/-- C7: on a relation-broken event the relation endpoint is treated as
absent even though the relation data is still readable at that moment
(for any other event the same data would resolve to `host:port`); with
the static endpoint also absent, the relation-broken handler sets the
Blocked status. -/
theorem c7_relation_broken_discards (s : Snapshot) (hst pt : String)
    (hlog : validLogLevel s.logLevel = true)
    (hcfg : optTruthy s.kafkaEndpointCfg = none)
    (hhost : optTruthy s.relationHost = some hst)
    (hport : optTruthy s.relationPort = some pt) :
    get_kafka_relation s .configChanged = some (hst ++ ":" ++ pt) ∧
    get_kafka_relation s .relationBroken = none ∧
    get_kafka_endpoint s .relationBroken = .error (charmError noEndpointMsg) ∧
    (on_db_relation_broken s).trace.status = some (Status.blocked noEndpointMsg) := by
  have h1 : get_kafka_relation s .configChanged = some (hst ++ ":" ++ pt) := by
    unfold get_kafka_relation
    simp [hhost, hport]
  have h2 : get_kafka_relation s .relationBroken = none := rfl
  have h3 : get_kafka_endpoint s .relationBroken = .error (charmError noEndpointMsg) := by
    rw [get_kafka_endpoint_spec]
    simp [hlog, hcfg, h2]
  refine ⟨h1, h2, h3, ?_⟩
  unfold on_db_relation_broken
  rw [h3]
  rfl

/-- Witness for C7 at relation data `kafka`/`9092` with no static
config. -/
theorem c7_relation_broken_discards_witness :
    get_kafka_relation snapRelOnly .configChanged = some ("kafka" ++ ":" ++ "9092") ∧
    get_kafka_relation snapRelOnly .relationBroken = none ∧
    get_kafka_endpoint snapRelOnly .relationBroken = .error (charmError noEndpointMsg) ∧
    (on_db_relation_broken snapRelOnly).trace.status = some (Status.blocked noEndpointMsg) :=
  c7_relation_broken_discards snapRelOnly "kafka" "9092" rfl rfl rfl rfl

/-! ## C8 — supervisor unreachable -/

/-- C8: when endpoint resolution succeeds but the supervisor is not
reachable, the config-changed handler sets the Waiting status, submits no
layer, and defers the event back to the platform for redelivery. -/
theorem c8_supervisor_unreachable (s : Snapshot) (ep : String)
    (hres : get_kafka_endpoint s .configChanged = .ok ep)
    (hconn : s.canConnect = false) :
    on_config_changed s =
      { trace := { status := some (Status.waiting "waiting for Pebble API"), deferred := true }
        ingressPush := some s.externalHostname } := by
  have hok : on_config_changed s =
      { trace := configure_service s.canConnect s.replanFails (pebble_layer (some ep)) 3 0 {}
        ingressPush := some s.externalHostname } := by
    unfold on_config_changed
    rw [hres]
  rw [hok, hconn]
  rfl

/-- Witness for C8 at static config `kafka:9092` with the supervisor
unreachable. -/
theorem c8_supervisor_unreachable_witness :
    on_config_changed snapUnreachable =
      { trace := { status := some (Status.waiting "waiting for Pebble API"), deferred := true }
        ingressPush := some snapUnreachable.externalHostname } :=
  c8_supervisor_unreachable snapUnreachable "kafka:9092" rfl rfl

/-! ## C9 — successful apply -/

/-- C9: when the supervisor is reachable, the endpoint resolves, and the
first submission succeeds, the config-changed handler sets `Active` (the
status constructor carrying no message) and submits exactly one layer
whose service command is `bin/kafka_exporter --kafka.server=<endpoint>`,
whose startup policy is `enabled`, and whose check is a ready-level TCP
probe of port 9308. -/
theorem c9_active_layer (s : Snapshot) (ep : String)
    (hres : get_kafka_endpoint s .configChanged = .ok ep)
    (hconn : s.canConnect = true)
    (hrep : s.replanFails 0 = none) :
    on_config_changed s =
      { trace := { layers := [pebble_layer (some ep)], replans := 1, status := some .active }
        ingressPush := some s.externalHostname } ∧
    (pebble_layer (some ep)).service.command = "bin/kafka_exporter --kafka.server=" ++ ep ∧
    (pebble_layer (some ep)).service.startup = "enabled" ∧
    (pebble_layer (some ep)).check.level = "ready" ∧
    (pebble_layer (some ep)).check.tcpPort = 9308 := by
  refine ⟨?_, rfl, rfl, rfl, rfl⟩
  have hok : on_config_changed s =
      { trace := configure_service s.canConnect s.replanFails (pebble_layer (some ep)) 3 0 {}
        ingressPush := some s.externalHostname } := by
    unfold on_config_changed
    rw [hres]
  have hcs : configure_service true s.replanFails (pebble_layer (some ep)) 3 0 {} =
      { layers := [pebble_layer (some ep)], replans := 1, status := some .active } := by
    show configure_service true s.replanFails (pebble_layer (some ep)) (Nat.succ 2) 0 {} = _
    simp only [configure_service, reduceIte]
    rw [hrep]
    rfl
  rw [hok, hconn, hcs]

/-- Witness for C9 at static config `kafka:9092` with the supervisor
reachable and the submission succeeding. -/
theorem c9_active_layer_witness :
    on_config_changed snapStaticOk =
      { trace :=
          { layers := [pebble_layer (some "kafka:9092")], replans := 1, status := some .active }
        ingressPush := some snapStaticOk.externalHostname } ∧
    (pebble_layer (some "kafka:9092")).service.command =
      "bin/kafka_exporter --kafka.server=" ++ "kafka:9092" ∧
    (pebble_layer (some "kafka:9092")).service.startup = "enabled" ∧
    (pebble_layer (some "kafka:9092")).check.level = "ready" ∧
    (pebble_layer (some "kafka:9092")).check.tcpPort = 9308 :=
  c9_active_layer snapStaticOk "kafka:9092" rfl rfl rfl

/-! ## C10 — empty static option is absence, not malformation -/

/-- C10: when the static `kafka-endpoint` option is present but equal to
the empty string, it is treated as absent: no wrong-format failure
occurs, and resolution yields the relation endpoint when present and the
no-endpoint failure otherwise. -/
theorem c10_empty_static (s : Snapshot)
    (hlog : validLogLevel s.logLevel = true)
    (hcfg : s.kafkaEndpointCfg = some "") :
    (get_kafka_endpoint s .configChanged =
      match get_kafka_relation s .configChanged with
      | some r => .ok r
      | none => .error (charmError noEndpointMsg)) ∧
    get_kafka_endpoint s .configChanged ≠ .error (charmError wrongFormatMsg) := by
  have h1 : get_kafka_endpoint s .configChanged =
      match get_kafka_relation s .configChanged with
      | some r => .ok r
      | none => .error (charmError noEndpointMsg) := by
    rw [get_kafka_endpoint_spec]
    simp [hlog, hcfg, optTruthy]
  refine ⟨h1, ?_⟩
  rw [h1]
  cases get_kafka_relation s .configChanged <;>
    simp [charmError, noEndpointMsg, wrongFormatMsg]

/-- Witness for C10 at an empty static option together with relation data
`kafka`/`9092`: resolution yields the relation endpoint. -/
theorem c10_empty_static_witness :
    (get_kafka_endpoint snapEmptyStaticRel .configChanged =
      match get_kafka_relation snapEmptyStaticRel .configChanged with
      | some r => .ok r
      | none => .error (charmError noEndpointMsg)) ∧
    get_kafka_endpoint snapEmptyStaticRel .configChanged ≠
      .error (charmError wrongFormatMsg) :=
  c10_empty_static snapEmptyStaticRel rfl rfl

end KafkaExporter
